import Mathlib

/-! Shallow embedding of the `cli_bot.py` command dispatcher and of the
`AddressBook`/`Record`/`NotesBook`/`Note` core it drives.  The dispatcher
(`source/cli_bot.py`) is translated directly; the data-model module
(`source.datamodels`) is not part of the visible sources, so its operations
are modelled from the specification (each such definition says so in its
doc comment).  Python exceptions are embedded as an explicit error kind plus
the message `str(e)` would produce; fallible code returns `Except`. -/

namespace CliBot

/-- Kinds of exception that flow through the dispatcher.  `opError` is
`CommandOperationalError`, `notSupported` is `CommandNotSupported`,
`sigStop` is `CliHelperSigStop` (cli_bot.py lines 19-32); `valueError`,
`keyError` and `indexError` are the Python builtins.  The data model's
`ValidationError` is raised as a `ValueError` and its `NotFoundError` as a
`KeyError` (the handlers catch `find` failures with `except KeyError`, and
`input_error` lists `ValueError`/`KeyError`). -/
inductive ExcKind where
  | opError
  | notSupported
  | valueError
  | keyError
  | indexError
  | sigStop
deriving DecidableEq

/-- A raised Python exception: its kind and the text `str(e)` yields. -/
structure Exc where
  kind : ExcKind
  msg : String
deriving DecidableEq

/-- The exception classes listed in the `except` clause of `input_error`
(cli_bot.py lines 41-46): `CommandOperationalError`, `CommandNotSupported`,
`ValueError`, `KeyError`.  `IndexError` and `CliHelperSigStop` are not
among them. -/
def caught : ExcKind → Bool
  | .opError => true
  | .notSupported => true
  | .valueError => true
  | .keyError => true
  | .indexError => false
  | .sigStop => false

/-- The `input_error` decorator (cli_bot.py lines 35-51) for a handler with
no state: a caught exception `e` becomes the returned string
`f"{error_msg_base}: {e}"`; any other exception propagates. -/
def inputError (base : String) : Except Exc String → Except Exc String
  | .ok s => .ok s
  | .error e => if caught e.kind then .ok (base ++ ": " ++ e.msg) else .error e

/-- The `input_error` decorator applied to a state-mutating handler.  Every
embedded handler raises only before it mutates the book, so on a caught
exception the wrapper returns the book it was called with, matching the
in-place Python semantics. -/
def inputErrorS {α : Type} (base : String) (book : α) :
    Except Exc (String × α) → Except Exc (String × α)
  | .ok v => .ok v
  | .error e => if caught e.kind then .ok (base ++ ": " ++ e.msg, book) else .error e

/-- Python `" ".join(args)` as used in the handlers' error messages. -/
def joinSp (args : List String) : String := String.intercalate " " args

/-- Python's whitespace-mode `str.split()` on an explicit character list:
maximal runs of non-whitespace characters, leading/trailing/repeated
whitespace dropped.  `acc` holds the current run, reversed. -/
def pySplitChars : List Char → List Char → List String
  | [], acc => if acc.isEmpty then [] else [String.mk acc.reverse]
  | c :: cs, acc =>
    if c.isWhitespace then
      if acc.isEmpty then pySplitChars cs []
      else String.mk acc.reverse :: pySplitChars cs []
    else pySplitChars cs (c :: acc)

/-- Python `user_input.split()` (no separator argument). -/
def pySplit (s : String) : List String := pySplitChars s.toList []

/-- The message CPython attaches to the `ValueError` raised by unpacking
`command, *args = []`. -/
def unpackMsg : String := "not enough values to unpack (expected at least 1, got 0)"

/-- `CliHelperBot.parse_input` (cli_bot.py lines 135-143).
`command, *args = user_input.split()` raises `ValueError` when the split is
empty; `command.casefold()` is modelled by `String.toLower` (the commands
are ASCII); for `close`/`exit` the args are replaced by the good-bye text. -/
def parse_input (user_input : String) : Except Exc (String × List String) :=
  match pySplit user_input with
  | [] => .error ⟨.valueError, unpackMsg⟩
  | command :: args =>
    let command := command.toLower
    let args :=
      if command = "close" ∨ command = "exit" then
        ["Command '" ++ command ++ "' received. Good buy!"]
      else args
    .ok (command, args)

/-- `CliHelperBot.execute_command` before its decorator (cli_bot.py lines
400-406), over the handler table `self.supported_commands`: an unknown
command raises `CommandNotSupported`, otherwise the handler runs on the
args. -/
def execute_command (table : String → Option (List String → Except Exc String))
    (command : String) (args : List String) : Except Exc String :=
  match table command with
  | none => .error ⟨.notSupported, "command '" ++ command ++ "' is not supported!"⟩
  | some handler => handler args

/-- `execute_command` with its `input_error(error_msg_base="Command execution
failed")` decorator. -/
def execute_command_wrapped (table : String → Option (List String → Except Exc String))
    (command : String) (args : List String) : Except Exc String :=
  inputError "Command execution failed" (execute_command table command args)

/-- Outcome of one iteration of `CliHelperBot.main`'s loop (cli_bot.py lines
976-1007): a normal print-and-continue, the `CliHelperSigStop` break, or an
exception printed and re-raised (terminating the bot). -/
inductive LoopOutcome where
  | continued (output : String)
  | stopped (msg : String)
  | crashed (e : Exc)
deriving DecidableEq

/-- One iteration of `CliHelperBot.main`'s `while True` body: parse, execute,
print; `except CliHelperSigStop` breaks the loop, `except Exception` prints
and re-raises. -/
def mainStep (table : String → Option (List String → Except Exc String))
    (input : String) : LoopOutcome :=
  match parse_input input with
  | .error e => if e.kind = .sigStop then .stopped e.msg else .crashed e
  | .ok (command, args) =>
    match execute_command_wrapped table command args with
    | .ok out => .continued out
    | .error e => if e.kind = .sigStop then .stopped e.msg else .crashed e

/-- A dispatcher result that either returned normally or raised only
exception kinds `input_error` catches. -/
def okOrCaught : Except Exc String → Prop
  | .ok _ => True
  | .error e => caught e.kind = true

/-- A calendar date, year/month/day, as `datetime.date` stores it. -/
structure Date where
  year : Int
  month : Nat
  day : Nat
deriving DecidableEq

/-- Serial day number of a civil date (days since 1970-01-01, the standard
days-from-civil computation), giving the date arithmetic `datetime.date`
provides: ordering, differences in days, and weekday. -/
def Date.dayNumber (dt : Date) : Int :=
  let y : Int := if dt.month ≤ 2 then dt.year - 1 else dt.year
  let era : Int := (if 0 ≤ y then y else y - 399) / 400
  let yoe : Int := y - era * 400
  let mp : Int := ((dt.month : Int) + 9) % 12
  let doy : Int := (153 * mp + 2) / 5 + (dt.day : Int) - 1
  let doe : Int := yoe * 365 + yoe / 4 - yoe / 100 + doy
  era * 146097 + doe - 719468

/-- Weekday of a serial day number, Python numbering: 0 = Monday .. 6 =
Sunday (1970-01-01, day 0, was a Thursday = 3). -/
def weekdayOf (dn : Int) : Int := (dn + 3) % 7

/-- Modelled from the spec: the congratulation-date policy of
`AddressBook.get_birthdays_per_days` (datamodels is not in the visible
sources).  A Saturday or Sunday occurrence is shifted forward to the
following Monday; weekdays are unchanged. -/
def congratsDay (dn : Int) : Int :=
  if 5 ≤ weekdayOf dn then dn + (7 - weekdayOf dn) else dn

/-- Modelled from the spec: this year's occurrence of a birthday's
month/day or, if that already passed this year, next year's occurrence. -/
def occurrenceDay (today : Date) (b : Date) : Int :=
  let thisYear := Date.dayNumber ⟨today.year, b.month, b.day⟩
  if thisYear < today.dayNumber then Date.dayNumber ⟨today.year + 1, b.month, b.day⟩
  else thisYear

/-- Gregorian leap-year rule, for date validation. -/
def isLeapYear (y : Int) : Bool := (y % 4 == 0 && y % 100 != 0) || y % 400 == 0

/-- Number of days in a month of a given year. -/
def monthLength (y : Int) (m : Nat) : Nat :=
  if m = 2 then (if isLeapYear y then 29 else 28)
  else if m = 4 ∨ m = 6 ∨ m = 9 ∨ m = 11 then 30
  else 31

/-- Numeric value of a digit string. -/
def digitsVal (l : List Char) : Nat :=
  l.foldl (fun n c => 10 * n + (c.toNat - 48)) 0

/-- Modelled from the spec: `parse_date` of the missing Validators module.
The fixed `YYYY.MM.DD` pattern; out-of-range components (month 13, day 32,
non-leap Feb 29) are rejected.  The `ValidationError` it raises is embedded
as a `ValueError` (the handlers' docstrings say "ValueError if date is
invalid" and rely on `input_error` catching it). -/
def parseDate (s : String) : Except Exc Date :=
  match s.toList.splitOn '.' with
  | [ys, ms, ds] =>
    if ys.length = 4 ∧ ys.all Char.isDigit ∧ ms.length = 2 ∧ ms.all Char.isDigit ∧
        ds.length = 2 ∧ ds.all Char.isDigit then
      let y : Int := (digitsVal ys : Int)
      let m := digitsVal ms
      let d := digitsVal ds
      if 1 ≤ m ∧ m ≤ 12 ∧ 1 ≤ d ∧ d ≤ monthLength y m then .ok ⟨y, m, d⟩
      else .error ⟨.valueError, "time data '" ++ s ++ "' does not match format '%Y.%m.%d'"⟩
    else .error ⟨.valueError, "time data '" ++ s ++ "' does not match format '%Y.%m.%d'"⟩
  | _ => .error ⟨.valueError, "time data '" ++ s ++ "' does not match format '%Y.%m.%d'"⟩

/-- Modelled from the spec: one contact of the missing datamodels module —
name (the collection key), the ordered phone sequence, and the optional
birthday, email and address fields. -/
structure Record where
  name : String
  phones : List String
  birthday : Option Date
  email : Option String
  address : Option String
deriving DecidableEq

/-- Replace the first occurrence of `old` in a list by `new`, preserving
position (the in-place edit of `Record.edit_phone`). -/
def replaceFirst (old new : String) : List String → List String
  | [] => []
  | p :: ps => if p = old then new :: ps else p :: replaceFirst old new ps

/-- Modelled from the spec: `Record.edit_phone(old, new)` — `NotFoundError`
(a `KeyError`) if `old` is not among the phones, else replace the first
match in place.  The phone grammar of `validate_phone` is an unspecified
external contract, so no shape check is modelled on `new`. -/
def Record.edit_phone (r : Record) (old new : String) : Except Exc Record :=
  if old ∈ r.phones then .ok { r with phones := replaceFirst old new r.phones }
  else .error ⟨.keyError, old⟩

/-- Modelled from the spec: `Record.remove_phone(value)` — `NotFoundError`
(a `KeyError`) if `value` is absent, else remove the first match. -/
def Record.remove_phone (r : Record) (p : String) : Except Exc Record :=
  if p ∈ r.phones then .ok { r with phones := r.phones.erase p }
  else .error ⟨.keyError, p⟩

/-- Modelled from the spec: `Record.add_birthday(date_str)` parses via
`parse_date` and overwrites any existing birthday. -/
def Record.add_birthday (r : Record) (s : String) : Except Exc Record :=
  (parseDate s).map (fun d => { r with birthday := some d })

/-- Modelled from the spec: `Record.remove_birthday()` — clears the field,
total (no error if already absent). -/
def Record.remove_birthday (r : Record) : Record := { r with birthday := none }

/-- Modelled from the spec: `Record.remove_email()` — idempotent clear. -/
def Record.remove_email (r : Record) : Record := { r with email := none }

/-- Modelled from the spec: `Record.remove_address()` — idempotent clear. -/
def Record.remove_address (r : Record) : Record := { r with address := none }

/-- Render an optional date the way the Python code interpolates
`record.birthday` (str of the value, `None` when absent).  Modelled from the
spec: the exact rendering of datamodels is not in the visible sources; the
spec fixes only that it is deterministic. -/
def renderOptDate : Option Date → String
  | none => "None"
  | some d => toString d.year ++ "-" ++ toString d.month ++ "-" ++ toString d.day

/-- Modelled from the spec: the textual representation `Record.__str__`.
Its exact format is not in the visible sources; the spec fixes only a
deterministic, stable rendering of the present fields, which is all any
claim depends on. -/
def Record.render (r : Record) : String :=
  "Contact name: " ++ r.name ++ ", phones: " ++ String.intercalate "; " r.phones ++
    ", birthday: " ++ renderOptDate r.birthday ++
    ", email: " ++ (r.email.getD "None") ++ ", address: " ++ (r.address.getD "None")

/-- Modelled from the spec: the `AddressBook` of the missing datamodels
module — a name-keyed, insertion-ordered mapping of records, embedded as
the list of its values (Python dicts preserve insertion order). -/
abbrev AddressBook := List Record

/-- Modelled from the spec: `AddressBook.find(name)` — the record stored
under `name`, `NotFoundError` (a `KeyError`, whose `str` is the repr of the
missing key) if no such key. -/
def AddressBook.find : AddressBook → String → Except Exc Record
  | [], name => .error ⟨.keyError, "'" ++ name ++ "'"⟩
  | r :: rest, name => if r.name = name then .ok r else AddressBook.find rest name

/-- Modelled from the spec: `AddressBook.add_record(record)` — `None`
sentinel and no mutation when the name is already a key, else insert at the
end and return the stored record.  The pair is (returned value, book after
the call). -/
def AddressBook.add_record (book : AddressBook) (r : Record) :
    Option Record × AddressBook :=
  if book.any (fun x => x.name == r.name) then (none, book)
  else (some r, book ++ [r])

/-- Write back a record obtained from `find` after an in-place mutation:
replace the first record stored under `name`. -/
def AddressBook.setRecord : AddressBook → String → Record → AddressBook
  | [], _, _ => []
  | x :: rest, name, r =>
    if x.name = name then r :: rest else x :: AddressBook.setRecord rest name r

/-- Modelled from the spec: one note of the missing datamodels module —
name (the key), the project role set at creation, the space-joined task
text, and the ordered hobby list. -/
structure Note where
  name : String
  project_role : String
  project_tasks : String
  hobbies : List String
deriving DecidableEq

/-- Modelled from the spec: `Note.add_hobby(text)` — appends `text` as one
new entry of `hobbies` (the entry may be a multi-word phrase). -/
def Note.add_hobby (n : Note) (h : String) : Note :=
  { n with hobbies := n.hobbies ++ [h] }

/-- Modelled from the spec: the `NotesBook`, embedded like `AddressBook`. -/
abbrev NotesBook := List Note

/-- Modelled from the spec: `NotesBook.find(name)`. -/
def NotesBook.find : NotesBook → String → Except Exc Note
  | [], name => .error ⟨.keyError, "'" ++ name ++ "'"⟩
  | n :: rest, name => if n.name = name then .ok n else NotesBook.find rest name

/-- Modelled from the spec: `NotesBook.add_note(note)` — the same
already-exists `None` sentinel pattern as `add_record`. -/
def NotesBook.add_note (book : NotesBook) (n : Note) : Option Note × NotesBook :=
  if book.any (fun x => x.name == n.name) then (none, book)
  else (some n, book ++ [n])

/-- Write back a note obtained from `find` after an in-place mutation. -/
def NotesBook.setNote : NotesBook → String → Note → NotesBook
  | [], _, _ => []
  | x :: rest, name, n =>
    if x.name = name then n :: rest else x :: NotesBook.setNote rest name n

/-- Strip leading and trailing whitespace, as Python `int(str)` does before
reading the digits. -/
def stripWs (l : List Char) : List Char :=
  ((l.dropWhile Char.isWhitespace).reverse.dropWhile Char.isWhitespace).reverse

/-- Python's `int(s)` on a string: optional surrounding whitespace, an
optional sign, then at least one decimal digit; `none` models the
`ValueError` on anything else.  (Negative integer strings are accepted —
`int("-5")` is `-5`.) -/
def pyInt (s : String) : Option Int :=
  match stripWs s.toList with
  | '-' :: ds =>
    if ds.isEmpty then none
    else if ds.all Char.isDigit then some (-(digitsVal ds : Int)) else none
  | '+' :: ds =>
    if ds.isEmpty then none
    else if ds.all Char.isDigit then some (digitsVal ds : Int) else none
  | ds =>
    if ds.isEmpty then none
    else if ds.all Char.isDigit then some (digitsVal ds : Int) else none

/-- Append record `r` to the group keyed `k`, creating the group at the end
on first use: the insertion-ordered dict-of-lists grouping of
`get_birthdays_per_days`. -/
def addToGroups (k : Int) (r : Record) :
    List (Int × List Record) → List (Int × List Record)
  | [] => [(k, [r])]
  | (k', rs) :: gs =>
    if k' = k then (k', rs ++ [r]) :: gs else (k', rs) :: addToGroups k r gs

/-- Modelled from the spec: the per-record step of
`get_birthdays_per_days` — skip records with no birthday; compute the
occurrence; keep it only if it falls within the inclusive window
`[today, today + n days]`; group the record under the weekend-adjusted
congratulation date. -/
def birthdayStep (today : Date) (n : Int)
    (gs : List (Int × List Record)) (r : Record) : List (Int × List Record) :=
  match r.birthday with
  | none => gs
  | some b =>
    let occ := occurrenceDay today b
    if today.dayNumber ≤ occ ∧ occ ≤ today.dayNumber + n then
      addToGroups (congratsDay occ) r gs
    else gs

/-- Modelled from the spec: `AddressBook.get_birthdays_per_days(n)` — scan
the records in collection order, group the qualifying ones by
congratulation date (as a serial day number) preserving each group's
insertion order, and order the groups by date ascending.  `today` is the
current date the Python code reads from the clock. -/
def get_birthdays_per_days (book : AddressBook) (today : Date) (n : Int) :
    List (Int × List Record) :=
  (book.foldl (birthdayStep today n) []).insertionSort (fun a b => a.1 ≤ b.1)

/-- Membership of record `r` in the group keyed `k` of a grouping. -/
def inGroups (k : Int) (r : Record) (gs : List (Int × List Record)) : Prop :=
  ∃ rs, (k, rs) ∈ gs ∧ r ∈ rs

/-- `CliHelperBot.add_contact` before its decorator (cli_bot.py lines
190-218): two arguments exactly, a fresh `Record` with the one phone, the
`None` sentinel of `add_record` re-raised as `CommandOperationalError`. -/
def add_contact (book : AddressBook) (args : List String) :
    Except Exc (String × AddressBook) :=
  match args with
  | [username, phone] =>
    match AddressBook.add_record book
        { name := username, phones := [phone], birthday := none,
          email := none, address := none } with
    | (none, _) =>
      .error ⟨.opError, "user with username " ++ username ++
        " already exist. If you want to update number, please use 'change' command."⟩
    | (some _, book') =>
      .ok ("Contact " ++ username ++ " created with phone: " ++ phone ++ ".", book')
  | _ =>
    .error ⟨.opError, "command expects an input of two arguments: username and phone, separated by a space. Received: " ++ joinSp args⟩

/-- `add_contact` with `input_error(error_msg_base="Command 'add' failed")`. -/
def add_contact_wrapped (book : AddressBook) (args : List String) :
    Except Exc (String × AddressBook) :=
  inputErrorS "Command 'add' failed" book (add_contact book args)

/-- `CliHelperBot.change_contact` before its decorator (cli_bot.py lines
220-250): find the record (a `KeyError` re-raised as
`CommandOperationalError`), then `record.edit_phone(record.phones[0].value,
phone)` — the unguarded `[0]` raises `IndexError` on an empty phone list. -/
def change_contact (book : AddressBook) (args : List String) :
    Except Exc (String × AddressBook) :=
  match args with
  | [username, phone] =>
    match AddressBook.find book username with
    | .error _ =>
      .error ⟨.opError, "user with username " ++ username ++
        " doesn't exist. If you want to add number, please use 'add' command."⟩
    | .ok record =>
      match record.phones with
      | [] => .error ⟨.indexError, "list index out of range"⟩
      | p0 :: _ =>
        match record.edit_phone p0 phone with
        | .error e => .error e
        | .ok r' =>
          .ok ("Contact " ++ username ++ " updated with phone: " ++ phone ++ ".",
            AddressBook.setRecord book username r')
  | _ =>
    .error ⟨.opError, "command expects an input of two arguments: username and phone, separated by a space. Received: " ++ joinSp args⟩

/-- `change_contact` with `input_error(error_msg_base="Command 'update'
failed")`. -/
def change_contact_wrapped (book : AddressBook) (args : List String) :
    Except Exc (String × AddressBook) :=
  inputErrorS "Command 'update' failed" book (change_contact book args)

/-- `CliHelperBot.get_contact` before its decorator (cli_bot.py lines
313-341): one argument; the `KeyError` of `find` is re-raised as
`CommandOperationalError` with a message that only says to try another
username. -/
def get_contact (book : AddressBook) (args : List String) :
    Except Exc (String × AddressBook) :=
  match args with
  | [username] =>
    match AddressBook.find book username with
    | .error _ =>
      .error ⟨.opError, "user with username " ++ username ++
        " doesn't exist. Try another username."⟩
    | .ok record => .ok ("Record found: \n" ++ record.render, book)
  | _ =>
    .error ⟨.opError, "command expects an input of one argument: username. Received: " ++ joinSp args⟩

/-- `get_contact` with `input_error(error_msg_base="Command 'phone'
failed")`. -/
def get_contact_wrapped (book : AddressBook) (args : List String) :
    Except Exc (String × AddressBook) :=
  inputErrorS "Command 'phone' failed" book (get_contact book args)

/-- `CliHelperBot.show_birthday` before its decorator (cli_bot.py lines
252-280). -/
def show_birthday (book : AddressBook) (args : List String) :
    Except Exc (String × AddressBook) :=
  match args with
  | [username] =>
    match AddressBook.find book username with
    | .error _ =>
      .error ⟨.opError, "user with username " ++ username ++
        " doesn't exist. Try another username."⟩
    | .ok record =>
      .ok ("User's " ++ username ++ " birthday is: " ++ renderOptDate record.birthday,
        book)
  | _ =>
    .error ⟨.opError, "command expects an input of one argument: username. Received: " ++ joinSp args⟩

/-- `show_birthday` with `input_error(error_msg_base="Command
'show-birthday' failed")`. -/
def show_birthday_wrapped (book : AddressBook) (args : List String) :
    Except Exc (String × AddressBook) :=
  inputErrorS "Command 'show-birthday' failed" book (show_birthday book args)

/-- `CliHelperBot.add_birthday` before its decorator (cli_bot.py lines
157-188): find the record (message referencing the 'add' command on
failure), then `record.add_birthday(date_str)`. -/
def add_birthday (book : AddressBook) (args : List String) :
    Except Exc (String × AddressBook) :=
  match args with
  | [username, date_str] =>
    match AddressBook.find book username with
    | .error _ =>
      .error ⟨.opError, "user with username " ++ username ++
        " doesn't exist. If you want to add number, please use 'add' command."⟩
    | .ok record =>
      match record.add_birthday date_str with
      | .error e => .error e
      | .ok r' =>
        .ok ("Contact " ++ username ++ " updated with date: " ++ date_str ++ ".",
          AddressBook.setRecord book username r')
  | _ =>
    .error ⟨.opError, "command expects an input of two arguments: username and date, separated by a space. Received: " ++ joinSp args⟩

/-- `add_birthday` with `input_error(error_msg_base="Command 'add-birthday'
failed")`. -/
def add_birthday_wrapped (book : AddressBook) (args : List String) :
    Except Exc (String × AddressBook) :=
  inputErrorS "Command 'add-birthday' failed" book (add_birthday book args)

/-- `CliHelperBot.delete_phone` before its decorator (cli_bot.py lines
766-794): find the record, then `record.remove_phone(phone)`; no guard
keeps a record's last phone. -/
def delete_phone (book : AddressBook) (args : List String) :
    Except Exc (String × AddressBook) :=
  match args with
  | [username, phone] =>
    match AddressBook.find book username with
    | .error _ =>
      .error ⟨.opError, "user with username " ++ username ++
        " doesn`t exist. Try another username"⟩
    | .ok record =>
      match record.remove_phone phone with
      | .error e => .error e
      | .ok r' =>
        .ok ("Phone of contact  " ++ username ++ " removed from Address book.",
          AddressBook.setRecord book username r')
  | _ =>
    .error ⟨.opError, "command expects an input of one argument: username and phone. Received: " ++ joinSp args⟩

/-- `delete_phone` with `input_error(error_msg_base="Command 'delete-phone'
failed")`. -/
def delete_phone_wrapped (book : AddressBook) (args : List String) :
    Except Exc (String × AddressBook) :=
  inputErrorS "Command 'delete-phone' failed" book (delete_phone book args)

/-- Rendering of one group of `birthdays`' output:
`f"\nHave BD on {date}:\n {records_str}"` with
`records_str = "| " + "\n | ".join(str(r) for r in records)`.  The date key
is a serial day number in this embedding, so its rendering stands in for
`str` of the Python date. -/
def renderGroup (g : Int × List Record) : String :=
  "\nHave BD on " ++ toString g.1 ++ ":\n " ++
    ("| " ++ String.intercalate "\n | " (g.2.map Record.render))

/-- `CliHelperBot.birthdays` before its decorator (cli_bot.py lines
343-376): one argument, `int(args[0])` with the `ValueError` re-raised as
`CommandOperationalError` (note `int` accepts negative integer strings),
then the core call; an empty result prints `No contacts found`. -/
def birthdays (book : AddressBook) (today : Date) (args : List String) :
    Except Exc String :=
  match args with
  | [s] =>
    match pyInt s with
    | none =>
      .error ⟨.opError, "Command expects a valid integer - number of days, please recheck your input."⟩
    | some days =>
      let results := get_birthdays_per_days book today days
      if results.isEmpty then .ok "No contacts found"
      else .ok ("Contacts per day: " ++ String.join (results.map renderGroup))
  | _ =>
    .error ⟨.opError, "Warning: Command expect one argument: number of days. Received: " ++ joinSp args ++ "\n"⟩

/-- `birthdays` with `input_error(error_msg_base="Command 'birthdays'
failed")`. -/
def birthdays_wrapped (book : AddressBook) (today : Date) (args : List String) :
    Except Exc String :=
  inputError "Command 'birthdays' failed" (birthdays book today args)

/-- `CliHelperBot.add_hobby` before its decorator (cli_bot.py lines
622-653).  The source guard is `if len(args) <= 2: raise ...` — it rejects
unless at least three arguments arrive, although its own message says the
command expects two; with three or more, `name, *hobby = args` and the
hobby words are space-joined into one entry. -/
def add_hobby (nbook : NotesBook) (args : List String) :
    Except Exc (String × NotesBook) :=
  match args with
  | name :: h1 :: h2 :: rest =>
    let hobby_str := joinSp (h1 :: h2 :: rest)
    match NotesBook.find nbook name with
    | .error _ =>
      .error ⟨.opError, "note with name " ++ name ++ " doesn't exist. "⟩
    | .ok note =>
      .ok ("Note " ++ name ++ " updated with hobby: " ++ hobby_str ++ ".",
        NotesBook.setNote nbook name (note.add_hobby hobby_str))
  | _ =>
    .error ⟨.opError, "command expects an input of two arguments: name and hobby, separated by a space. Received: " ++ joinSp args⟩

/-- `add_hobby` with `input_error(error_msg_base="Command 'add-hobby'
failed")`. -/
def add_hobby_wrapped (nbook : NotesBook) (args : List String) :
    Except Exc (String × NotesBook) :=
  inputErrorS "Command 'add-hobby' failed" nbook (add_hobby nbook args)

/-- `CliHelperBot.add_note` before its decorator (cli_bot.py lines
474-502): two arguments exactly, a fresh `Note`, the `None` sentinel of
`add_note` re-raised as `CommandOperationalError`. -/
def add_note (nbook : NotesBook) (args : List String) :
    Except Exc (String × NotesBook) :=
  match args with
  | [name, project_role] =>
    match NotesBook.add_note nbook
        { name := name, project_role := project_role,
          project_tasks := "", hobbies := [] } with
    | (none, _) =>
      .error ⟨.opError, "Note " ++ name ++
        " already exist. If you want to update project role, please use 'change-project-role' command."⟩
    | (some _, nbook') =>
      .ok ("Created note " ++ name ++ " " ++ project_role ++ ".", nbook')
  | _ =>
    .error ⟨.opError, "command expects an input of two arguments: name and project role, separated by a space. Received: " ++ joinSp args⟩

/-- `add_note` with `input_error(error_msg_base="Command 'add-note'
failed")`. -/
def add_note_wrapped (nbook : NotesBook) (args : List String) :
    Except Exc (String × NotesBook) :=
  inputErrorS "Command 'add-note' failed" nbook (add_note nbook args)

/-- Whether `needle` is a prefix of `hay`, on character lists. -/
def isPrefixL : List Char → List Char → Bool
  | [], _ => true
  | _ :: _, [] => false
  | a :: as, b :: bs => a = b && isPrefixL as bs

/-- Whether `needle` occurs contiguously inside `hay`. -/
def containsL (needle : List Char) : List Char → Bool
  | [] => needle.isEmpty
  | c :: rest => isPrefixL needle (c :: rest) || containsL needle rest

/-- Whether the string `needle` occurs inside the string `hay` (Python's
`needle in hay`). -/
def containsSub (needle hay : String) : Bool :=
  containsL needle.toList hay.toList

/-- A one-record book: alice, a single phone, a birthday of 1990.03.05. -/
def bdayBook : AddressBook :=
  [{ name := "alice", phones := ["1234567890"], birthday := some ⟨1990, 3, 5⟩,
     email := none, address := none }]

/-- A concrete "today": 2024.03.03, a Sunday. -/
def day0 : Date := ⟨2024, 3, 3⟩

/-- A record holding exactly one phone. -/
def aliceRec : Record :=
  { name := "alice", phones := ["1234567890"], birthday := none,
    email := none, address := none }

/-- The same record after its only phone was removed. -/
def alicePhoneless : Record :=
  { name := "alice", phones := [], birthday := none, email := none, address := none }

/-- A note as the spec's end-to-end scenario creates it:
`add note ("proj1", "backend")`. -/
def projNote : Note :=
  { name := "proj1", project_role := "backend", project_tasks := "", hobbies := [] }

/-- Decidable equality of handler results, so that concrete executions can
be settled by `decide`. -/
instance {ε α : Type} [DecidableEq ε] [DecidableEq α] : DecidableEq (Except ε α) :=
  fun a b =>
    match a, b with
    | .ok x, .ok y => if h : x = y then .isTrue (by rw [h]) else .isFalse (by simp [h])
    | .error x, .error y => if h : x = y then .isTrue (by rw [h]) else .isFalse (by simp [h])
    | .ok _, .error _ => .isFalse (by simp)
    | .error _, .ok _ => .isFalse (by simp)

/-- Splitting a string of whitespace characters yields no tokens. -/
theorem pySplitChars_nil_of_ws (l : List Char)
    (h : ∀ c ∈ l, c.isWhitespace = true) : pySplitChars l [] = [] := by
  induction l with
  | nil => rfl
  | cons c cs ih =>
    have hc := h c (List.mem_cons_self c cs)
    simp only [pySplitChars, hc, if_true, List.isEmpty]
    exact ih (fun x hx => h x (List.mem_cons_of_mem _ hx))

/-- C10: for every user input string containing no non-whitespace
characters, `parse_input` raises `ValueError` (the unpacking of an empty
split fails) instead of returning a `(command, args)` pair, and the main
loop does not convert this into a user message but re-raises it,
terminating the bot. -/
theorem c10_blank_input_crashes
    (table : String → Option (List String → Except Exc String)) (input : String)
    (h : ∀ c ∈ input.toList, c.isWhitespace = true) :
    parse_input input = .error ⟨.valueError, unpackMsg⟩ ∧
    mainStep table input = .crashed ⟨.valueError, unpackMsg⟩ := by
  have h1 : parse_input input = .error ⟨.valueError, unpackMsg⟩ := by
    unfold parse_input pySplit
    rw [pySplitChars_nil_of_ws _ h]
  exact ⟨h1, by simp [mainStep, h1]⟩

/-- Witness for C10 at the empty input line. -/
theorem c10_witness :
    parse_input "" = .error ⟨.valueError, unpackMsg⟩ ∧
    mainStep (fun _ => none) "" = .crashed ⟨.valueError, unpackMsg⟩ :=
  c10_blank_input_crashes (fun _ => none) "" (by decide)

/-- C9: for every command string and argument list, `execute_command`
returns a string rather than raising whenever the invoked handler raises
only the kinds `input_error` catches; a caught exception `e` becomes the
string `"Command execution failed: " ++ str e`, and an unsupported command
name yields exactly `"Command execution failed: command '<name>' is not
supported!"` rather than an uncaught exception. -/
theorem c9_execute_command_total
    (table : String → Option (List String → Except Exc String))
    (command : String) (args : List String) :
    ((∀ h, table command = some h → okOrCaught (h args)) →
      ∃ s, execute_command_wrapped table command args = .ok s) ∧
    (∀ h e, table command = some h → h args = .error e → caught e.kind = true →
      execute_command_wrapped table command args =
        .ok ("Command execution failed: " ++ e.msg)) ∧
    (table command = none →
      execute_command_wrapped table command args =
        .ok ("Command execution failed: command '" ++ command ++ "' is not supported!")) := by
  refine ⟨?_, ?_, ?_⟩
  · intro hok
    cases ht : table command with
    | none => simp [execute_command_wrapped, execute_command, inputError, ht, caught]
    | some h =>
      have hh := hok h ht
      cases hr : h args with
      | ok s => simp [execute_command_wrapped, execute_command, inputError, ht, hr]
      | error e =>
        rw [hr] at hh
        simp only [okOrCaught] at hh
        simp [execute_command_wrapped, execute_command, inputError, ht, hr, hh]
  · intro h e ht hr hc
    simp [execute_command_wrapped, execute_command, inputError, ht, hr, hc]
  · intro ht
    simp only [execute_command_wrapped, execute_command, inputError, ht]
    rw [if_pos (by rfl)]
    rw [← String.append_assoc, ← String.append_assoc]
    rw [show ("Command execution failed" ++ ": " ++ "command '" : String) =
      "Command execution failed: command '" from rfl]

/-- Witness for C9 at an unsupported command name over an empty table. -/
theorem c9_witness :
    execute_command_wrapped (fun _ => none) "bogus" [] =
      .ok ("Command execution failed: command 'bogus' is not supported!") :=
  (c9_execute_command_total (fun _ => none) "bogus" []).2.2 rfl

/-- No record belongs to any group of the empty grouping. -/
theorem inGroups_nil {k : Int} {r : Record} : inGroups k r [] ↔ False := by
  simp [inGroups]

/-- Unfolding group membership over a cons cell. -/
theorem inGroups_cons {k k' : Int} {r : Record} {rs' : List Record}
    {gs : List (Int × List Record)} :
    inGroups k r ((k', rs') :: gs) ↔ (k = k' ∧ r ∈ rs') ∨ inGroups k r gs := by
  constructor
  · rintro ⟨rs, hmem, hr⟩
    rcases List.mem_cons.mp hmem with h | h
    · have h1 : k = k' := congrArg Prod.fst h
      have h2 : rs = rs' := congrArg Prod.snd h
      exact Or.inl ⟨h1, h2 ▸ hr⟩
    · exact Or.inr ⟨rs, h, hr⟩
  · rintro (⟨rfl, hr⟩ | ⟨rs, hmem, hr⟩)
    · exact ⟨rs', List.mem_cons_self _ _, hr⟩
    · exact ⟨rs, List.mem_cons_of_mem _ hmem, hr⟩

/-- `addToGroups k' r'` adds exactly the membership of `r'` in group `k'`
and preserves every other membership. -/
theorem inGroups_addToGroups {k k' : Int} {r r' : Record} :
    ∀ gs : List (Int × List Record),
      inGroups k r (addToGroups k' r' gs) ↔ inGroups k r gs ∨ (k' = k ∧ r = r')
  | [] => by
    rw [addToGroups, inGroups_cons]
    simp [inGroups_nil, eq_comm]
  | (k0, rs0) :: gs => by
    by_cases h : k0 = k'
    · subst h
      rw [addToGroups, if_pos rfl, inGroups_cons, inGroups_cons]
      simp only [List.mem_append, List.mem_singleton]
      constructor
      · rintro (⟨rfl, hr | rfl⟩ | hg)
        · exact Or.inl (Or.inl ⟨rfl, hr⟩)
        · exact Or.inr ⟨rfl, rfl⟩
        · exact Or.inl (Or.inr hg)
      · rintro ((⟨rfl, hr⟩ | hg) | ⟨rfl, rfl⟩)
        · exact Or.inl ⟨rfl, Or.inl hr⟩
        · exact Or.inr hg
        · exact Or.inl ⟨rfl, Or.inr rfl⟩
    · rw [addToGroups, if_neg h, inGroups_cons, inGroups_cons,
        inGroups_addToGroups gs]
      tauto

/-- Membership in the grouping built by folding `birthdayStep` over a list
of records: either the membership was already in the accumulator, or it
comes from a qualifying record of the list, grouped under its
congratulation day. -/
theorem inGroups_foldl (today : Date) (n : Int) {k : Int} {r : Record} :
    ∀ (rs : List Record) (gs : List (Int × List Record)),
      inGroups k r (List.foldl (birthdayStep today n) gs rs) ↔
        inGroups k r gs ∨ ∃ x ∈ rs, r = x ∧ ∃ b, x.birthday = some b ∧
          today.dayNumber ≤ occurrenceDay today b ∧
          occurrenceDay today b ≤ today.dayNumber + n ∧
          congratsDay (occurrenceDay today b) = k
  | [], gs => by simp
  | x :: rs, gs => by
    rw [List.foldl_cons, inGroups_foldl today n rs]
    simp only [List.exists_mem_cons_iff]
    cases hb : x.birthday with
    | none =>
      simp only [birthdayStep, hb]
      simp [hb]
    | some b =>
      by_cases hw : today.dayNumber ≤ occurrenceDay today b ∧
          occurrenceDay today b ≤ today.dayNumber + n
      · obtain ⟨hw1, hw2⟩ := hw
        simp only [birthdayStep, hb, if_pos (And.intro hw1 hw2),
          inGroups_addToGroups]
        simp only [hb, Option.some.injEq]
        constructor
        · rintro ((hg | ⟨hk, rfl⟩) | hrest)
          · exact Or.inl hg
          · exact Or.inr (Or.inl ⟨rfl, b, rfl, hw1, hw2, hk⟩)
          · exact Or.inr (Or.inr hrest)
        · rintro (hg | (⟨rfl, b', hb', _, _, hk⟩ | hrest))
          · exact Or.inl (Or.inl hg)
          · cases hb'
            exact Or.inl (Or.inr ⟨hk, rfl⟩)
          · exact Or.inr hrest
      · simp only [birthdayStep, hb, if_neg hw]
        simp only [hb, Option.some.injEq]
        constructor
        · rintro (hg | hrest)
          · exact Or.inl hg
          · exact Or.inr (Or.inr hrest)
        · rintro (hg | (⟨rfl, b', hb', h1, h2, _⟩ | hrest))
          · exact Or.inl hg
          · cases hb'
            exact absurd ⟨h1, h2⟩ hw
          · exact Or.inr hrest

/-- C1: for every address book, today's date and non-negative integer `n`,
the grouping `get_birthdays_per_days(n)` contains a record under the key
`k` if and only if the record is in the book and has a birthday whose
this-year (or, if already passed, next-year) occurrence falls in the
inclusive window `[today, today + n]`, with `k` the congratulation day —
the occurrence shifted to the following Monday when it falls on a Saturday
or Sunday and unchanged on weekdays.  In particular a record with no
birthday set never appears in any group. -/
theorem c1_get_birthdays_membership (book : AddressBook) (today : Date)
    (n : Nat) (k : Int) (r : Record) :
    (∃ rs, (k, rs) ∈ get_birthdays_per_days book today (n : Int) ∧ r ∈ rs) ↔
      r ∈ book ∧ ∃ b, r.birthday = some b ∧
        today.dayNumber ≤ occurrenceDay today b ∧
        occurrenceDay today b ≤ today.dayNumber + (n : Int) ∧
        congratsDay (occurrenceDay today b) = k := by
  have hmem : (∃ rs, (k, rs) ∈ get_birthdays_per_days book today (n : Int) ∧ r ∈ rs) ↔
      inGroups k r (List.foldl (birthdayStep today (n : Int)) [] book) := by
    unfold get_birthdays_per_days inGroups
    constructor
    · rintro ⟨rs, h, hr⟩
      exact ⟨rs, (List.mem_insertionSort _).mp h, hr⟩
    · rintro ⟨rs, h, hr⟩
      exact ⟨rs, (List.mem_insertionSort _).mpr h, hr⟩
  rw [hmem, inGroups_foldl today (n : Int) book [], inGroups_nil, false_or]
  constructor
  · rintro ⟨x, hx, rfl, hq⟩
    exact ⟨hx, hq⟩
  · rintro ⟨hx, hq⟩
    exact ⟨r, hx, rfl, hq⟩

/-- C2: evaluation of the dispatcher at the failing input of the spec's
end-to-end scenario.  With the note `("proj1", "backend")` stored, the
add-hobby command with exactly the two arguments `proj1` and `chess` is
rejected by the `len(args) <= 2` guard as having too few arguments — the
handler's own message says the command expects two arguments — and the note
is left unchanged, where the spec's scenario has `add_hobby("proj1",
"chess")` succeed by appending `chess` to the note's hobbies. -/
theorem c2_add_hobby_two_args_rejected :
    add_hobby_wrapped [projNote] ["proj1", "chess"] =
      .ok ("Command 'add-hobby' failed: command expects an input of two arguments: name and hobby, separated by a space. Received: proj1 chess",
        [projNote]) := by decide

/-- C3: for every AddressBook (and analogously NotesBook), `add_record` on
a record whose name is already a key returns the `None` sentinel without
mutating the collection and without raising; on a fresh name it inserts and
returns the record; and the dispatcher's add command on an already-used
name reports failure and creates no duplicate. -/
theorem c3_add_record_sentinel (book : AddressBook) (nbook : NotesBook)
    (r : Record) (nt : Note) (phone : String) :
    ((∃ x ∈ book, x.name = r.name) → AddressBook.add_record book r = (none, book)) ∧
    ((∀ x ∈ book, x.name ≠ r.name) →
      AddressBook.add_record book r = (some r, book ++ [r])) ∧
    ((∃ x ∈ nbook, x.name = nt.name) → NotesBook.add_note nbook nt = (none, nbook)) ∧
    ((∀ x ∈ nbook, x.name ≠ nt.name) →
      NotesBook.add_note nbook nt = (some nt, nbook ++ [nt])) ∧
    ((∃ x ∈ book, x.name = r.name) →
      add_contact_wrapped book [r.name, phone] =
        .ok ("Command 'add' failed: user with username " ++ r.name ++
          " already exist. If you want to update number, please use 'change' command.",
          book)) := by
  refine ⟨?_, ?_, ?_, ?_, ?_⟩
  · rintro ⟨x, hx, hname⟩
    have hany : book.any (fun y => y.name == r.name) = true :=
      List.any_eq_true.mpr ⟨x, hx, by simp [hname]⟩
    simp only [AddressBook.add_record, hany, if_true]
  · intro h
    have hany : ¬ (book.any (fun y => y.name == r.name) = true) := by
      simp only [List.any_eq_true, beq_iff_eq]
      rintro ⟨x, hx, hbeq⟩
      exact h x hx hbeq
    simp only [AddressBook.add_record, if_neg hany]
  · rintro ⟨x, hx, hname⟩
    have hany : nbook.any (fun y => y.name == nt.name) = true :=
      List.any_eq_true.mpr ⟨x, hx, by simp [hname]⟩
    simp only [NotesBook.add_note, hany, if_true]
  · intro h
    have hany : ¬ (nbook.any (fun y => y.name == nt.name) = true) := by
      simp only [List.any_eq_true, beq_iff_eq]
      rintro ⟨x, hx, hbeq⟩
      exact h x hx hbeq
    simp only [NotesBook.add_note, if_neg hany]
  · rintro ⟨x, hx, hname⟩
    have hany : book.any (fun y => y.name == r.name) = true :=
      List.any_eq_true.mpr ⟨x, hx, by simp [hname]⟩
    simp only [add_contact_wrapped, add_contact, AddressBook.add_record, hany,
      if_true, inputErrorS, caught]
    rw [← String.append_assoc, ← String.append_assoc]
    rw [show "Command 'add' failed" ++ ": " ++ "user with username " =
      "Command 'add' failed: user with username " from rfl]

/-- Witness for C3: alice is already stored, bob is fresh. -/
theorem c3_witness :
    AddressBook.add_record [aliceRec] aliceRec = (none, [aliceRec]) ∧
    AddressBook.add_record [] aliceRec = (some aliceRec, [] ++ [aliceRec]) ∧
    NotesBook.add_note [] projNote = (some projNote, [] ++ [projNote]) ∧
    add_contact_wrapped [aliceRec] ["alice", "999"] =
      .ok ("Command 'add' failed: user with username " ++ "alice" ++
        " already exist. If you want to update number, please use 'change' command.",
        [aliceRec]) :=
  ⟨(c3_add_record_sentinel [aliceRec] [] aliceRec projNote "999").1
      ⟨aliceRec, by simp, rfl⟩,
   (c3_add_record_sentinel [] [] aliceRec projNote "999").2.1 (by simp),
   (c3_add_record_sentinel [] [] aliceRec projNote "999").2.2.2.1 (by simp),
   (c3_add_record_sentinel [aliceRec] [] aliceRec projNote "999").2.2.2.2
      ⟨aliceRec, by simp, rfl⟩⟩

/-- C4 counterexample: from a book satisfying the claimed invariant (alice
holds one phone), the delete-phone command succeeds and leaves a record
whose phones sequence is empty — `remove_phone` does not preserve the
"at least one phone" invariant. -/
theorem c4_counterexample :
    delete_phone_wrapped [aliceRec] ["alice", "1234567890"] =
      .ok ("Phone of contact  alice removed from Address book.", [alicePhoneless]) ∧
    alicePhoneless.phones = [] := ⟨by decide, rfl⟩

/-- C4 (amended): every record is created with exactly one phone — the one
supplied to the add command — so the "at least one phone" property holds at
creation; but it is not preserved by every operation: `remove_phone` on a
record holding a single phone succeeds and leaves the phones sequence
empty. -/
theorem c4_phone_at_creation_not_preserved :
    (∀ (book : AddressBook) (username phone out : String) (book' : AddressBook),
      add_contact book [username, phone] = .ok (out, book') →
      book' = book ++ [{ name := username, phones := [phone],
                         birthday := none, email := none, address := none }]) ∧
    (∀ (r : Record) (p : String), r.phones = [p] →
      Record.remove_phone r p = .ok { r with phones := [] }) := by
  constructor
  · intro book username phone out book' h
    by_cases hany : book.any (fun y => y.name == username) = true
    · simp only [add_contact, AddressBook.add_record, hany, if_true] at h
      exact Except.noConfusion h
    · simp only [add_contact, AddressBook.add_record, hany, if_false,
        Bool.false_eq_true] at h
      exact (Prod.mk.injEq .. ▸ Except.ok.injEq .. ▸ h).2.symm
  · intro r p h
    simp [Record.remove_phone, h, List.erase_cons_head]

/-- Witness for C4 at alice's creation and the removal of her only phone. -/
theorem c4_witness :
    ([aliceRec] : AddressBook) = [] ++ [{ name := "alice", phones := ["1234567890"],
                                          birthday := none, email := none,
                                          address := none }] ∧
    Record.remove_phone aliceRec "1234567890" = .ok { aliceRec with phones := [] } :=
  ⟨c4_phone_at_creation_not_preserved.1 [] "alice" "1234567890"
      "Contact alice created with phone: 1234567890." [aliceRec] (by decide),
   c4_phone_at_creation_not_preserved.2 aliceRec "1234567890" rfl⟩

/-- With a negative window the per-record step keeps nothing: the window
`[today, today + n]` is empty. -/
theorem birthdayStep_neg (today : Date) {n : Int} (hn : n < 0)
    (gs : List (Int × List Record)) (r : Record) :
    birthdayStep today n gs r = gs := by
  unfold birthdayStep
  cases r.birthday with
  | none => rfl
  | some b =>
    have hne : ¬ (today.dayNumber ≤ occurrenceDay today b ∧
        occurrenceDay today b ≤ today.dayNumber + n) := by
      rintro ⟨h1, h2⟩
      omega
    simp [hne]

/-- A negative `n` makes `get_birthdays_per_days` total with no matches. -/
theorem get_birthdays_per_days_neg (book : AddressBook) (today : Date)
    {n : Int} (hn : n < 0) : get_birthdays_per_days book today n = [] := by
  unfold get_birthdays_per_days
  have hfold : List.foldl (birthdayStep today n) [] book = [] := by
    induction book with
    | nil => rfl
    | cons x xs ih => rw [List.foldl_cons, birthdayStep_neg today hn]; exact ih
  rw [hfold]
  rfl

/-- C5 counterexample: `"-1"` is not a valid non-negative integer, yet the
caller-facing birthdays layer does not fail with a validation error —
Python's `int` accepts it, `get_birthdays_per_days` is called with `-1`,
and the command reports plain "No contacts found" even over a book that
holds a record with a birthday. -/
theorem c5_counterexample :
    birthdays_wrapped bdayBook day0 ["-1"] = .ok "No contacts found" := by decide

/-- C5 (amended): an argument string that is not a valid integer at all is
rejected by the caller-facing layer with a `CommandOperationalError` before
`get_birthdays_per_days` is called; a negative integer string passes that
layer, and the core operation stays total on it, treating a negative `n`
as producing no matches. -/
theorem c5_birthdays_negative_total (book : AddressBook) (today : Date)
    (s : String) :
    (pyInt s = none → birthdays_wrapped book today [s] =
      .ok "Command 'birthdays' failed: Command expects a valid integer - number of days, please recheck your input.") ∧
    (∀ z : Int, pyInt s = some z → z < 0 →
      get_birthdays_per_days book today z = []) := by
  constructor
  · intro h
    simp only [birthdays_wrapped, birthdays, h, inputError, caught, if_true]
    rw [show "Command 'birthdays' failed" ++ ": " ++
      "Command expects a valid integer - number of days, please recheck your input." =
      "Command 'birthdays' failed: Command expects a valid integer - number of days, please recheck your input." from rfl]
  · intro z _ hneg
    exact get_birthdays_per_days_neg book today hneg

/-- Witness for C5 at a non-numeric string and at `"-1"`. -/
theorem c5_witness :
    birthdays_wrapped bdayBook day0 ["abc"] =
      .ok "Command 'birthdays' failed: Command expects a valid integer - number of days, please recheck your input." ∧
    get_birthdays_per_days bdayBook day0 (-1) = [] :=
  ⟨(c5_birthdays_negative_total bdayBook day0 "abc").1 (by decide),
   (c5_birthdays_negative_total bdayBook day0 "-1").2 (-1) (by decide) (by decide)⟩

/-- Lookup of a name stored under no record fails with the `KeyError`
embedding `NotFoundError`. -/
theorem find_absent (book : AddressBook) (name : String)
    (h : ∀ r ∈ book, r.name ≠ name) :
    AddressBook.find book name = .error ⟨.keyError, "'" ++ name ++ "'"⟩ := by
  induction book with
  | nil => rfl
  | cons x xs ih =>
    rw [AddressBook.find, if_neg (h x (List.mem_cons_self _ _))]
    exact ih (fun r hr => h r (List.mem_cons_of_mem _ hr))

/-- C6 counterexample: the `phone` command's handler catches the not-found
failure of `find` for the absent name `bob`, yet its user-facing message
does not reference the add command — the string `add` does not occur in it
at all. -/
theorem c6_counterexample :
    get_contact_wrapped [] ["bob"] =
      .ok ("Command 'phone' failed: user with username bob doesn't exist. Try another username.",
        []) ∧
    containsSub "add"
      "Command 'phone' failed: user with username bob doesn't exist. Try another username." =
      false := ⟨by decide, by decide⟩

/-- C6 (amended): for every name not present in the AddressBook, `find`
fails with the `KeyError`-embedded `NotFoundError`; the `add-birthday`
handler catches it and returns a message referencing the add command, but
the `phone` and `show-birthday` handlers catch it and return a message that
only says to try another username, without referencing the add command. -/
theorem c6_not_found_messages (book : AddressBook) (username date_str : String)
    (h : ∀ r ∈ book, r.name ≠ username) :
    AddressBook.find book username = .error ⟨.keyError, "'" ++ username ++ "'"⟩ ∧
    add_birthday_wrapped book [username, date_str] =
      .ok ("Command 'add-birthday' failed: user with username " ++ username ++
        " doesn't exist. If you want to add number, please use 'add' command.", book) ∧
    get_contact_wrapped book [username] =
      .ok ("Command 'phone' failed: user with username " ++ username ++
        " doesn't exist. Try another username.", book) ∧
    show_birthday_wrapped book [username] =
      .ok ("Command 'show-birthday' failed: user with username " ++ username ++
        " doesn't exist. Try another username.", book) := by
  have hf := find_absent book username h
  refine ⟨hf, ?_, ?_, ?_⟩
  · simp only [add_birthday_wrapped, add_birthday, hf, inputErrorS, caught, if_true]
    rw [← String.append_assoc, ← String.append_assoc]
    rw [show "Command 'add-birthday' failed" ++ ": " ++ "user with username " =
      "Command 'add-birthday' failed: user with username " from rfl]
  · simp only [get_contact_wrapped, get_contact, hf, inputErrorS, caught, if_true]
    rw [← String.append_assoc, ← String.append_assoc]
    rw [show "Command 'phone' failed" ++ ": " ++ "user with username " =
      "Command 'phone' failed: user with username " from rfl]
  · simp only [show_birthday_wrapped, show_birthday, hf, inputErrorS, caught, if_true]
    rw [← String.append_assoc, ← String.append_assoc]
    rw [show "Command 'show-birthday' failed" ++ ": " ++ "user with username " =
      "Command 'show-birthday' failed: user with username " from rfl]

/-- Witness for C6 at the absent name `bob` over the empty book. -/
theorem c6_witness :
    get_contact_wrapped [] ["bob"] =
      .ok ("Command 'phone' failed: user with username " ++ "bob" ++
        " doesn't exist. Try another username.", []) :=
  (c6_not_found_messages [] "bob" "2000.01.01" (by simp)).2.2.1

/-- C7: for every record, `remove_email`, `remove_address` and
`remove_birthday` are idempotent — the second of two successive calls
leaves the record unchanged.  The operations are total by construction
(clearing an absent field is not an error), so no call raises. -/
theorem c7_remove_field_idempotent (r : Record) :
    (r.remove_email).remove_email = r.remove_email ∧
    (r.remove_address).remove_address = r.remove_address ∧
    (r.remove_birthday).remove_birthday = r.remove_birthday :=
  ⟨rfl, rfl, rfl⟩

/-- C8: if `change_contact` is invoked with a username and phone for an
existing contact whose phones sequence is empty, the unguarded
`record.phones[0]` raises `IndexError`, which `input_error` does not
convert to a message (it catches only `CommandOperationalError`,
`CommandNotSupported`, `ValueError` and `KeyError`), so the exception
escapes the command layer. -/
theorem c8_change_contact_empty_phones (book : AddressBook)
    (username phone : String) (r : Record)
    (hfind : AddressBook.find book username = .ok r) (hempty : r.phones = []) :
    change_contact_wrapped book [username, phone] =
      .error ⟨.indexError, "list index out of range"⟩ := by
  simp [change_contact_wrapped, change_contact, hfind, hempty, inputErrorS, caught]

/-- Witness for C8 at a one-record book whose record holds no phone. -/
theorem c8_witness :
    change_contact_wrapped [alicePhoneless] ["alice", "0000"] =
      .error ⟨.indexError, "list index out of range"⟩ :=
  c8_change_contact_empty_phones [alicePhoneless] "alice" "0000" alicePhoneless
    (by decide) rfl

end CliBot
